import Mathlib

/-!
Verification development for the sentry frontend slice: shallow embeddings of
`Accordion` (accordion.tsx), `SentryAppAvatar` and `VitalDetailContent`
(sentryAppAvatar.tsx), and `SampleTable` (sampleTable.tsx), together with the
query-string state model they manipulate.

JavaScript objects used as URL query maps are modelled as association lists of
`String × JsVal`, where `JsVal.undefined` models the JS value `undefined`
(a key that is absent behaves like a key bound to `undefined` on read, and
serialisation to a query string drops `undefined` bindings, as the router does).
-/

/-- A JavaScript query-parameter value: `undefined`, a string, or a string array. -/
inductive JsVal where
  | undefined
  | str (s : String)
  | strList (xs : List String)
deriving DecidableEq, Repr

/-- A JS object used as a URL query map: an association list, first binding wins. -/
def QueryMap : Type := List (String × JsVal)

instance : DecidableEq QueryMap := by
  unfold QueryMap
  infer_instance

/-- Property read `q[k]`: the first binding of `k`, or `undefined` when absent. -/
def QueryMap.get (q : QueryMap) (k : String) : JsVal :=
  match q.find? (fun p => p.1 == k) with
  | some p => p.2
  | none => JsVal.undefined

/-- Spread-assignment `{...q, k: v}`: bind `k` to `v`, keep every other binding. -/
def QueryMap.set (q : QueryMap) (k : String) (v : JsVal) : QueryMap :=
  (k, v) :: q.filter (fun p => !(p.1 == k))

/-- Lodash `omit(q, k)`: remove the binding of `k` entirely. -/
def QueryMap.omit (q : QueryMap) (k : String) : QueryMap :=
  q.filter (fun p => !(p.1 == k))

/-- Serialisation of a query object to query-string entries: bindings whose value
is `undefined` are dropped (as the router query-string encoder does). -/
def QueryMap.encoded (q : QueryMap) : QueryMap :=
  q.filter (fun p => !(p.2 == JsVal.undefined))

/-- Whether the encoded query string carries a parameter named `k`. -/
def QueryMap.hasParam (q : QueryMap) (k : String) : Bool :=
  (q.encoded).any (fun p => p.1 == k)

/-! ## VitalDetailContent (sentryAppAvatar.tsx, second module) -/

/-- Modelled from the spec: `decodeScalar` from `sentry/utils/queryString` is not
under src/. Per the QueryStateCodec contract, `decode` "reads each field in
schema (name, expected scalar type, default) from the URL query map; unknown or
malformed fields fall back to default without error" — a present string value is
returned as is (value validation is ViewSwitch's job per the UnknownMode error
kind), while an absent (`undefined`) or malformed (non-scalar) value falls back. -/
def decodeScalar (value : JsVal) (fallback : String) : String :=
  match value with
  | JsVal.str s => s
  | _ => fallback

/-- The string value of `DisplayModes.WORST_VITALS`. -/
def DisplayModes.WORST_VITALS : String := "Worst Vitals"

/-- The string value of `DisplayModes.DURATION_P75`. -/
def DisplayModes.DURATION_P75 : String := "P75"

/-- The display mode read in `VitalDetailContent`:
`decodeScalar(props.location.query.display, DisplayModes.WORST_VITALS)`. -/
def displayOf (locationQuery : QueryMap) : String :=
  decodeScalar (locationQuery.get "display") DisplayModes.WORST_VITALS

/-- JS `a || b` on an optional string (`undefined` and `""` are falsy). -/
def jsOrString (a : Option String) (b : String) : String :=
  match a with
  | some s => if s = "" then b else s
  | none => b

/-- The vital used by `VitalDetailContent`: `vitalName || WebVital.LCP`
(`WebVital.LCP` is the field name string `measurements.lcp`). -/
def vitalOf (vitalName : Option String) : String :=
  jsOrString vitalName "measurements.lcp"

/-- Embedding of `handleSearch(query)`: overlay `query` onto `location.query`, normalise the
date-time parameters (`normalizeDateTimeParams` is an external collaborator,
taken as a parameter), then `omit(queryParams, 'cursor')` — pagination is not
propagated to a new search. The result is the query map pushed to the router. -/
def handleSearch (normalizeDateTimeParams : QueryMap → QueryMap)
    (locationQuery : QueryMap) (query : String) : QueryMap :=
  let queryParams := normalizeDateTimeParams (locationQuery.set "query" (JsVal.str query))
  queryParams.omit "cursor"

/-- Embedding of `switchWebVital` (inside `renderVitalSwitcher`): pushes
`{...location.query, vitalName: newVitalName, cursor: undefined}`. -/
def switchWebVital (locationQuery : QueryMap) (newVitalName : String) : QueryMap :=
  (locationQuery.set "vitalName" (JsVal.str newVitalName)).set "cursor" JsVal.undefined

/-- Embedding of `handleDisplayChange(value)`: pushes `{...location.query, display: value}`. -/
def handleDisplayChange (locationQuery : QueryMap) (value : String) : QueryMap :=
  locationQuery.set "display" (JsVal.str value)

/-- The two mutually exclusive main views of `renderContent`. -/
inductive VitalView where
  | vitalWidget
  | vitalChart
deriving DecidableEq, Repr

/-- The display-mode-dependent part of the output of `renderContent`: which main
view is rendered, and whether the Total Events cell shows the count (or an
em dash). -/
structure RenderedContent where
  mainView : VitalView
  totalEvents : Option Nat
deriving DecidableEq, Repr

/-- The mode switch of `renderContent`: `display === DisplayModes.WORST_VITALS`
selects the `VitalWidget` branch, anything else the `VitalChart` branch; the
Total Events cell shows `totalEventsCount` only in the `WORST_VITALS` case. -/
def renderContent (display : String) (totalEventsCount : Nat) : RenderedContent :=
  { mainView :=
      if display = DisplayModes.WORST_VITALS then VitalView.vitalWidget
      else VitalView.vitalChart
    totalEvents :=
      if display = DisplayModes.WORST_VITALS then some totalEventsCount
      else none }

/-! ## Accordion (accordion.tsx) -/

/-- A rendered node, reduced to the parts the accordion claims observe. A
`button` records the index its `onClick` passes to `setExpandedIndex` and its
`aria-expanded` flag. -/
inductive DomNode where
  | text (s : String)
  | button (clickSetsIndex : Nat) (ariaExpanded : Bool)
  | elem (tag : String) (children : List DomNode)

/-- One accordion item: a header thunk and a content thunk, as in the
`AccordionItemContent` interface. -/
structure AccordionItemContent where
  content : Unit → DomNode
  header : Unit → DomNode

/-- A record of one thunk invocation made while rendering the accordion. -/
inductive ThunkCall where
  | content (index : Nat)
  | header (index : Nat)
deriving DecidableEq, Repr

/-- Embedding of `AccordionItem`: a list item whose header row holds the expand button
(`onClick={() => setExpandedIndex(index)}`, `aria-expanded={isExpanded}`) either
left or right of the header, and whose content container renders
`{isExpanded && content}`. -/
def AccordionItem.render (isExpanded : Bool) (currentIndex : Nat)
    (children content : DomNode) (buttonOnLeft : Bool) : DomNode :=
  if buttonOnLeft then
    DomNode.elem "li"
      [DomNode.elem "div" [DomNode.button currentIndex isExpanded, children],
       DomNode.elem "div" (if isExpanded then [content] else [])]
  else
    DomNode.elem "li"
      [DomNode.elem "div" [children, DomNode.button currentIndex isExpanded],
       DomNode.elem "div" (if isExpanded then [content] else [])]

/-- Embedding of `Accordion`: maps over `items`, rendering each through `AccordionItem` with
`isExpanded={index === expandedIndex}`, `content={item.content()}` and
`{item.header()}` as children. Alongside the node it returns the trace of
thunk invocations, one entry logged at each `item.content()` / `item.header()`
call site. -/
def Accordion.render (expandedIndex : Int) (items : List AccordionItemContent)
    (buttonOnLeft : Bool) : DomNode × List ThunkCall :=
  let parts := items.enum.map (fun p =>
    let contentNode := p.2.content ()
    let headerNode := p.2.header ()
    (AccordionItem.render ((p.1 : Int) == expandedIndex) p.1 headerNode contentNode
      buttonOnLeft,
     [ThunkCall.content p.1, ThunkCall.header p.1]))
  (DomNode.elem "ul" (parts.map Prod.fst), (parts.map Prod.snd).flatten)

/-- The children of an element node. -/
def DomNode.children : DomNode → List DomNode
  | DomNode.elem _ cs => cs
  | _ => []

/-- The expand button of a rendered `AccordionItem`, read positionally from the
header row according to `buttonOnLeft`. -/
def liButton (buttonOnLeft : Bool) (li : DomNode) : Option DomNode :=
  match li with
  | DomNode.elem _ (DomNode.elem _ row :: _) =>
      if buttonOnLeft then row.get? 0 else row.get? 1
  | _ => none

/-- The index a button click passes to `setExpandedIndex`. -/
def buttonClickIndex : DomNode → Option Nat
  | DomNode.button i _ => some i
  | _ => none

/-- The `aria-expanded` flag of a button node. -/
def buttonExpanded : DomNode → Bool
  | DomNode.button _ e => e
  | _ => false

/-- Whether a rendered `AccordionItem` is expanded, read from its button. -/
def liExpandedFlag (buttonOnLeft : Bool) (li : DomNode) : Bool :=
  match liButton buttonOnLeft li with
  | some b => buttonExpanded b
  | none => false

/-- The children of the content container of a rendered `AccordionItem`
(empty when collapsed, the single content node when expanded). -/
def liContentChildren (li : DomNode) : List DomNode :=
  match li with
  | DomNode.elem _ [_, DomNode.elem _ cs] => cs
  | _ => []

/-! ## SentryAppAvatar (sentryAppAvatar.tsx, first module) -/

/-- One entry of `sentryApp.avatars`. -/
structure SentryAppAvatarEntry where
  avatarType : String
  avatarUuid : Option String
  color : Bool
deriving DecidableEq, Repr

/-- The `sentryApp` prop: a name and an optional avatar list. -/
structure AvatarSentryApp where
  name : Option String
  avatars : Option (List SentryAppAvatarEntry)
deriving DecidableEq, Repr

/-- The rendered avatar: either the generic default icon or an uploaded
`BaseAvatar` with its upload id and backup avatar. -/
inductive AvatarNode where
  | iconGeneric
  | baseAvatar (uploadId : Option String) (backup : AvatarNode)
deriving DecidableEq, Repr

/-- Embedding of `SentryAppAvatar`: looks up `sentryApp?.avatars?.find(({color}) => color ===
isColor)`; renders the generic icon when `isDefault` is set, no matching avatar
exists, or the match has been reverted to `avatarType === 'default'`; otherwise
renders a `BaseAvatar` with `uploadId={avatarDetails?.avatarUuid}` backed by the
same generic icon. -/
def sentryAppAvatar (isColor : Bool) (isDefault : Bool)
    (sentryApp : Option AvatarSentryApp) : AvatarNode :=
  let avatarDetails :=
    sentryApp.bind (fun app =>
      app.avatars.bind (fun avs => avs.find? (fun a => a.color == isColor)))
  let defaultSentryAppAvatar := AvatarNode.iconGeneric
  if isDefault || avatarDetails.isNone
      || avatarDetails.any (fun a => a.avatarType == "default") then
    defaultSentryAppAvatar
  else
    AvatarNode.baseAvatar (avatarDetails.bind (fun a => a.avatarUuid))
      defaultSentryAppAvatar

/-- The avatar list actually searched by `SentryAppAvatar` (empty when
`sentryApp` or its `avatars` field is `undefined`). -/
def avatarListOf (sentryApp : Option AvatarSentryApp) : List SentryAppAvatarEntry :=
  (sentryApp.bind (fun app => app.avatars)).getD []

/-! ## SampleTable (sampleTable.tsx) -/

/-- One span sample from the `useSpanSamples` slice. -/
structure SpanSample where
  spanId : String
  transactionId : String
deriving DecidableEq, Repr

/-- One transaction from the `useTransactions` slice. -/
structure Transaction where
  id : String
  timestamp : String
deriving DecidableEq, Repr

/-- The `data` object of the `useSpanMetrics` slice; both fields read by
`SampleTable` are absent when the slice has produced no data. -/
structure SpanMetricsData where
  spanOp : Option String
  avgSelfTime : Option Int
deriving DecidableEq, Repr

/-- A row of the samples table: the span sample joined with the span op from the
metrics slice and the transaction matching `sample['transaction.id']`. -/
structure JoinedSample where
  sample : SpanSample
  op : Option String
  transaction : Option Transaction
deriving DecidableEq, Repr

/-- The hook results `SampleTable` consumes, one group per data slice. -/
structure SampleTableData where
  spanMetrics : SpanMetricsData
  isFetchingSpanMetrics : Bool
  spans : List SpanSample
  isFetchingSamples : Bool
  isSamplesEnabled : Bool
  sampleError : Option String
  transactions : List Transaction
  isFetchingTransactions : Bool
  isTransactionsEnabled : Bool
  isLoadingTransactions : Bool
  transactionError : Option String
deriving DecidableEq, Repr

/-- The observable output of one `SampleTable` render. -/
structure SampleTableOutput where
  pageError : Option String
  tableData : List JoinedSample
  isLoading : Bool
  hasData : Bool
  avg : Option Int
deriving DecidableEq, Repr

/-- Lodash `keyBy(transactions, 'id')` followed by indexing with `k`: the last
transaction whose `id` equals `k`, if any. -/
def keyByIdLookup (transactions : List Transaction) (k : String) : Option Transaction :=
  transactions.foldl (fun acc tx => if tx.id == k then some tx else acc) none

/-- The fixed page error message `SampleTable` reports. -/
def sampleTableErrorMessage : String := "An error has occured while loading the samples table"

/-- Embedding of `SampleTable`: joins the three slices. `transactionsById = keyBy(transactions,
'id')`; a row is `{...sample, op: spanMetrics[SPAN_OP], transaction:
transactionsById[sample['transaction.id']]}`. On `sampleError || transactionError`
it sets the fixed page error message. `isLoading` and `hasData` follow the
source expressions. -/
def sampleTable (inp : SampleTableData) : SampleTableOutput :=
  let areNoSamples := !inp.isFetchingSamples && inp.spans.length == 0
  let isLoading :=
    inp.isFetchingSpanMetrics || inp.isFetchingSamples || !inp.isSamplesEnabled
      || (!areNoSamples && inp.isFetchingTransactions && !inp.isTransactionsEnabled)
  let pageError :=
    if inp.sampleError.isSome || inp.transactionError.isSome then
      some sampleTableErrorMessage
    else none
  { pageError := pageError
    tableData := inp.spans.map (fun sample =>
      { sample := sample
        op := inp.spanMetrics.spanOp
        transaction := keyByIdLookup inp.transactions sample.transactionId })
    isLoading := isLoading
    hasData := inp.spans.length > 0
    avg := inp.spanMetrics.avgSelfTime }

/-- The first error among the slices, samples slice first (what an aggregate
status "carrying the first error encountered" would report). -/
def firstSliceError (inp : SampleTableData) : Option String :=
  inp.sampleError <|> inp.transactionError

/-! ## Stale-response suppression (spec model) -/

/-- Modelled from the spec: the data hooks (`useSpanSamples`, `useTransactions`)
and their caching layer that decide when a completed fetch is applied are not
under src/. Per §5, "the implementation must tag each in-flight fetch with the
Selection snapshot it was issued for and compare against the current Selection
on arrival (stale-response suppression)". The state tracks the current
selection, the tagged in-flight fetches, and the visible result together with
the selection it was fetched for. -/
structure FetchState (Sel Res : Type) where
  current : Sel
  inFlight : List (Nat × Sel)
  visible : Option (Res × Sel)
  nextId : Nat

/-- An event of the single-threaded UI dispatch model: a selection change, the
issue of a fetch for the current selection, or the arrival of a completion. -/
inductive FetchEvent (Sel Res : Type) where
  | changeSelection (s : Sel)
  | issueFetch
  | complete (id : Nat) (r : Res)

/-- Modelled from the spec: one event step. A completion looks up its fetch tag
and applies the result only when the tag still equals the current selection;
otherwise the result is discarded (only removed from the in-flight set). -/
def FetchState.step {Sel Res : Type} [DecidableEq Sel] (st : FetchState Sel Res) :
    FetchEvent Sel Res → FetchState Sel Res
  | FetchEvent.changeSelection s => { st with current := s }
  | FetchEvent.issueFetch =>
      { st with inFlight := (st.nextId, st.current) :: st.inFlight,
                nextId := st.nextId + 1 }
  | FetchEvent.complete id r =>
      match st.inFlight.find? (fun p => p.1 == id) with
      | some tagged =>
          if tagged.2 = st.current then
            { st with visible := some (r, tagged.2),
                      inFlight := st.inFlight.filter (fun p => !(p.1 == id)) }
          else
            { st with inFlight := st.inFlight.filter (fun p => !(p.1 == id)) }
      | none => st

/-- The initial state: a current selection, nothing in flight, nothing visible. -/
def FetchState.init {Sel Res : Type} (s0 : Sel) : FetchState Sel Res :=
  { current := s0, inFlight := [], visible := none, nextId := 0 }

/-- Running an event trace from a state. -/
def FetchState.run {Sel Res : Type} [DecidableEq Sel] (st : FetchState Sel Res)
    (events : List (FetchEvent Sel Res)) : FetchState Sel Res :=
  events.foldl FetchState.step st

/-- The bookkeeping invariant of the fetch model: in-flight fetch ids are
distinct and below the id counter. -/
def FetchState.WF {Sel Res : Type} (st : FetchState Sel Res) : Prop :=
  (st.inFlight.map Prod.fst).Nodup ∧ ∀ p ∈ st.inFlight, p.1 < st.nextId

/-! ## Concrete inputs used to evaluate the claims -/

/-- A concrete three-item accordion list. -/
def sampleItems : List AccordionItemContent :=
  [{ content := fun _ => DomNode.text "content0", header := fun _ => DomNode.text "header0" },
   { content := fun _ => DomNode.text "content1", header := fun _ => DomNode.text "header1" },
   { content := fun _ => DomNode.text "content2", header := fun _ => DomNode.text "header2" }]

/-- A concrete hook-result state: the samples and metrics slices succeeded with
one span, the transactions slice failed with an HTTP 500 and produced no data. -/
def partialFailureData : SampleTableData :=
  { spanMetrics := { spanOp := some "db", avgSelfTime := some 12 }
    isFetchingSpanMetrics := false
    spans := [{ spanId := "s1", transactionId := "t1" }]
    isFetchingSamples := false
    isSamplesEnabled := true
    sampleError := none
    transactions := []
    isFetchingTransactions := false
    isTransactionsEnabled := true
    isLoadingTransactions := false
    transactionError := some "HTTP 500" }

/-! ## Query-map lemmas -/

theorem QueryMap.find?_filter_ne (q : QueryMap) (k k' : String) (h : k' ≠ k) :
    (q.filter (fun p => !(p.1 == k))).find? (fun p => p.1 == k') =
      q.find? (fun p => p.1 == k') := by
  induction q with
  | nil => rfl
  | cons a q ih =>
    obtain ⟨ka, va⟩ := a
    by_cases hk : ka = k
    · subst hk
      have h1 : (ka == k') = false := beq_eq_false_iff_ne.mpr (Ne.symm h)
      simp [List.filter_cons, List.find?_cons, h1, ih]
    · by_cases hk' : ka = k'
      · subst hk'
        simp [List.filter_cons, List.find?_cons, beq_eq_false_iff_ne.mpr hk]
      · simp [List.filter_cons, List.find?_cons, beq_eq_false_iff_ne.mpr hk,
          beq_eq_false_iff_ne.mpr hk', ih]

theorem QueryMap.get_set (q : QueryMap) (k : String) (v : JsVal) (k' : String) :
    (q.set k v).get k' = if k' = k then v else q.get k' := by
  by_cases h : k' = k
  · subst h
    simp [QueryMap.get, QueryMap.set, List.find?_cons]
  · rw [if_neg h]
    rw [QueryMap.get, QueryMap.set, List.find?_cons]
    rw [show (k == k') = false from beq_eq_false_iff_ne.mpr (Ne.symm h)]
    rw [QueryMap.find?_filter_ne q k k' h, QueryMap.get]

theorem QueryMap.get_omit (q : QueryMap) (k k' : String) :
    (q.omit k).get k' = if k' = k then JsVal.undefined else q.get k' := by
  by_cases h : k' = k
  · rw [if_pos h, h]
    have hnone : (q.filter (fun p => !(p.1 == k))).find? (fun p => p.1 == k) = none := by
      rw [List.find?_eq_none]
      intro x hx
      simp only [List.mem_filter, Bool.not_eq_true'] at hx
      simp [hx.2]
    rw [QueryMap.omit, QueryMap.get, hnone]
  · rw [if_neg h, QueryMap.omit, QueryMap.get, QueryMap.find?_filter_ne q k k' h, QueryMap.get]

theorem QueryMap.hasParam_omit_self (q : QueryMap) (k : String) :
    (q.omit k).hasParam k = false := by
  rw [QueryMap.hasParam, List.any_eq_false]
  intro x hx
  simp only [QueryMap.encoded, QueryMap.omit, List.mem_filter, Bool.not_eq_true'] at hx
  simp [hx.1.2]

theorem QueryMap.hasParam_set_undefined (q : QueryMap) (k : String) :
    (q.set k JsVal.undefined).hasParam k = false := by
  rw [QueryMap.hasParam, List.any_eq_false]
  intro x hx
  rw [QueryMap.encoded, QueryMap.set] at hx
  have hx2 := List.mem_filter.mp hx
  rcases List.mem_cons.mp hx2.1 with h1 | h1
  · exfalso
    rw [h1] at hx2
    simp at hx2
  · have := (List.mem_filter.mp h1).2
    simp only [Bool.not_eq_true'] at this
    simp [this]

/-! ## Claims about the selection transitions and the codec -/

/-- C2: counterexample. Clicking "switch to P75" (`handleDisplayChange`) from a
query carrying a cursor produces a query map whose encoded string still carries
the prior cursor parameter — the cursor is not dropped on a display-mode
change. -/
theorem display_change_keeps_cursor_counterexample :
    (handleDisplayChange
        [("display", JsVal.str "Worst Vitals"), ("vitalName", JsVal.str "lcp"),
         ("cursor", JsVal.str "0:100:0")] "P75").hasParam "cursor" = true
    ∧ (handleDisplayChange
        [("display", JsVal.str "Worst Vitals"), ("vitalName", JsVal.str "lcp"),
         ("cursor", JsVal.str "0:100:0")] "P75").get "display" = JsVal.str "P75"
    ∧ (handleDisplayChange
        [("display", JsVal.str "Worst Vitals"), ("vitalName", JsVal.str "lcp"),
         ("cursor", JsVal.str "0:100:0")] "P75").get "cursor" = JsVal.str "0:100:0" := by
  refine ⟨by decide, by decide, by decide⟩

/-- C2 (amended): a new search drops the cursor parameter (whatever the external
date-time normaliser does) and a vital switch sets it to `undefined`, so neither
encoded query string carries a cursor; but a display-mode change spreads the
previous query unchanged, carrying any prior cursor parameter over instead of
dropping it. -/
theorem cursor_reset_by_transition (normalize : QueryMap → QueryMap)
    (q : QueryMap) (search value newVital : String) :
    (handleSearch normalize q search).hasParam "cursor" = false
    ∧ (switchWebVital q newVital).get "cursor" = JsVal.undefined
    ∧ (switchWebVital q newVital).hasParam "cursor" = false
    ∧ (handleDisplayChange q value).get "cursor" = q.get "cursor" := by
  refine ⟨?_, ?_, ?_, ?_⟩
  · exact QueryMap.hasParam_omit_self _ "cursor"
  · rw [switchWebVital, QueryMap.get_set, if_pos rfl]
  · exact QueryMap.hasParam_set_undefined _ "cursor"
  · rw [handleDisplayChange, QueryMap.get_set, if_neg (by decide)]

/-- C6: counterexample. The display transition does not reset the cursor: from a
query with a cursor, `handleDisplayChange` leaves the cursor parameter with its
previous (non-`undefined`) value, contradicting the "resets cursor" clause. -/
theorem display_transition_no_cursor_reset_counterexample :
    (handleDisplayChange [("vitalName", JsVal.str "lcp"), ("cursor", JsVal.str "0:50:1")]
        "P75").get "cursor" = JsVal.str "0:50:1"
    ∧ JsVal.str "0:50:1" ≠ JsVal.undefined := ⟨by decide, by decide⟩

/-- C6 (amended): each transition changes only its own field in the query map —
every other parameter reads back byte-identical, so unspecified fields are
carried over rather than reset — except that the vital switch additionally sets
the cursor to `undefined`; the display transition resets nothing, not even the
cursor. -/
theorem transition_frame_effect (q : QueryMap) (value newVital k : String) :
    (k ≠ "display" → (handleDisplayChange q value).get k = q.get k)
    ∧ (handleDisplayChange q value).get "display" = JsVal.str value
    ∧ (k ≠ "vitalName" → k ≠ "cursor" → (switchWebVital q newVital).get k = q.get k)
    ∧ (switchWebVital q newVital).get "vitalName" = JsVal.str newVital
    ∧ (switchWebVital q newVital).get "cursor" = JsVal.undefined := by
  refine ⟨?_, ?_, ?_, ?_, ?_⟩
  · intro h
    rw [handleDisplayChange, QueryMap.get_set, if_neg h]
  · rw [handleDisplayChange, QueryMap.get_set, if_pos rfl]
  · intro h1 h2
    rw [switchWebVital, QueryMap.get_set, if_neg h2, QueryMap.get_set, if_neg h1]
  · rw [switchWebVital, QueryMap.get_set, if_neg (by decide), QueryMap.get_set, if_pos rfl]
  · rw [switchWebVital, QueryMap.get_set, if_pos rfl]

/-- Witness for the frame-effect theorem at a concrete query map and the
unrelated parameter `statsPeriod`. -/
theorem transition_frame_effect_witness :
    (handleDisplayChange [("statsPeriod", JsVal.str "24h"), ("cursor", JsVal.str "0:10:0")]
        "P75").get "statsPeriod"
      = QueryMap.get [("statsPeriod", JsVal.str "24h"), ("cursor", JsVal.str "0:10:0")]
          "statsPeriod"
    ∧ (switchWebVital [("statsPeriod", JsVal.str "24h")] "measurements.fid").get "statsPeriod"
      = QueryMap.get [("statsPeriod", JsVal.str "24h")] "statsPeriod" :=
  ⟨(transition_frame_effect _ "P75" "measurements.fid" "statsPeriod").1 (by decide),
   (transition_frame_effect _ "P75" "measurements.fid" "statsPeriod").2.2.1
      (by decide) (by decide)⟩

/-- C7: decoding recovers defaults without error — an absent (`undefined`) or
malformed (string-array) display value decodes to the WORST_VITALS default, a
query parameter other than `display` never affects the decoded display, and an
absent vital falls back to LCP. -/
theorem decode_defaults (q : QueryMap) (xs : List String) :
    (q.get "display" = JsVal.undefined → displayOf q = DisplayModes.WORST_VITALS)
    ∧ (q.get "display" = JsVal.strList xs → displayOf q = DisplayModes.WORST_VITALS)
    ∧ (∀ k v, k ≠ "display" → displayOf (q.set k v) = displayOf q)
    ∧ vitalOf none = "measurements.lcp" := by
  refine ⟨?_, ?_, ?_, rfl⟩
  · intro h
    rw [displayOf, h]
    rfl
  · intro h
    rw [displayOf, h]
    rfl
  · intro k v h
    rw [displayOf, QueryMap.get_set, if_neg (fun e => h e.symm), displayOf]

/-- Witness for the decode-default theorem: a query without a display field and
one with an array-valued display field both decode to WORST_VITALS. -/
theorem decode_defaults_witness :
    displayOf [("vitalName", JsVal.str "lcp")] = DisplayModes.WORST_VITALS
    ∧ displayOf [("display", JsVal.strList ["P75", "Worst Vitals"])]
        = DisplayModes.WORST_VITALS
    ∧ vitalOf none = "measurements.lcp" :=
  ⟨(decode_defaults [("vitalName", JsVal.str "lcp")] []).1 (by decide),
   (decode_defaults [("display", JsVal.strList ["P75", "Worst Vitals"])]
      ["P75", "Worst Vitals"]).2.1 (by decide),
   (decode_defaults [] []).2.2.2⟩

/-- C3: counterexample. An unknown display mode does not render the same output
as the designated default WORST_VITALS mode. -/
theorem unknown_display_not_default_counterexample :
    renderContent "spam" 5 ≠ renderContent DisplayModes.WORST_VITALS 5
    ∧ "spam" ≠ DisplayModes.WORST_VITALS
    ∧ "spam" ≠ DisplayModes.DURATION_P75 := ⟨by decide, by decide, by decide⟩

/-- C3 (amended): any display value other than WORST_VITALS — in particular any
unknown or stale mode — selects exactly the DURATION_P75 branch of
`renderContent` (the `VitalChart`, with an em dash for Total Events), and not
the WORST_VITALS branch; the switch never renders nothing. -/
theorem unknown_display_renders_p75_branch (display : String) (cnt : Nat)
    (h : display ≠ DisplayModes.WORST_VITALS) :
    renderContent display cnt = renderContent DisplayModes.DURATION_P75 cnt
    ∧ renderContent display cnt ≠ renderContent DisplayModes.WORST_VITALS cnt := by
  constructor
  · rw [renderContent, renderContent, if_neg h, if_neg h, if_neg (by decide),
      if_neg (by decide)]
  · rw [renderContent, renderContent, if_neg h, if_neg h, if_pos rfl, if_pos rfl]
    simp

/-- Witness for the unknown-display theorem at the stale mode string "worst_vitals". -/
theorem unknown_display_renders_p75_branch_witness :
    renderContent "worst_vitals" 7 = renderContent DisplayModes.DURATION_P75 7
    ∧ renderContent "worst_vitals" 7 ≠ renderContent DisplayModes.WORST_VITALS 7 :=
  unknown_display_renders_p75_branch "worst_vitals" 7 (by decide)

/-! ## Accordion lemmas -/

theorem AccordionItem.contentChildren_eq (x : Bool) (i : Nat) (hd c : DomNode) (b : Bool) :
    liContentChildren (AccordionItem.render x i hd c b) = if x then [c] else [] := by
  cases b <;> cases x <;> rfl

theorem AccordionItem.expandedFlag_eq (x : Bool) (i : Nat) (hd c : DomNode) (b : Bool) :
    liExpandedFlag b (AccordionItem.render x i hd c b) = x := by
  cases b <;> rfl

theorem AccordionItem.buttonIndex_eq (x : Bool) (i : Nat) (hd c : DomNode) (b : Bool) :
    (liButton b (AccordionItem.render x i hd c b)).bind buttonClickIndex = some i := by
  cases b <;> rfl

theorem Accordion.children_eq (e : Int) (items : List AccordionItemContent) (b : Bool) :
    (Accordion.render e items b).1.children
      = items.enum.map (fun p =>
          AccordionItem.render ((p.1 : Int) == e) p.1 (p.2.header ()) (p.2.content ()) b) := by
  simp only [Accordion.render, DomNode.children, List.map_map]
  rfl

theorem Accordion.expandedFlags_eq (e : Int) (items : List AccordionItemContent) (b : Bool) :
    ((Accordion.render e items b).1.children).map (liExpandedFlag b)
      = (List.range items.length).map (fun (i : Nat) => ((i : Int) == e)) := by
  rw [Accordion.children_eq, List.map_map]
  rw [show (liExpandedFlag b ∘ fun p : Nat × AccordionItemContent =>
      AccordionItem.render ((p.1 : Int) == e) p.1 (p.2.header ()) (p.2.content ()) b)
      = (fun (i : Nat) => ((i : Int) == e)) ∘ Prod.fst from
    funext (fun p => AccordionItem.expandedFlag_eq _ _ _ _ b)]
  rw [← List.map_map, List.enum_map_fst]

theorem Accordion.buttons_eq (e : Int) (items : List AccordionItemContent) (b : Bool) :
    ((Accordion.render e items b).1.children).map
        (fun li => (liButton b li).bind buttonClickIndex)
      = (List.range items.length).map some := by
  rw [Accordion.children_eq, List.map_map]
  rw [show ((fun li => (liButton b li).bind buttonClickIndex) ∘
      fun p : Nat × AccordionItemContent =>
        AccordionItem.render ((p.1 : Int) == e) p.1 (p.2.header ()) (p.2.content ()) b)
      = some ∘ Prod.fst from
    funext (fun p => AccordionItem.buttonIndex_eq _ _ _ _ b)]
  rw [← List.map_map, List.enum_map_fst]

theorem Accordion.contentChildren_map_eq (e : Int) (items : List AccordionItemContent)
    (b : Bool) :
    ((Accordion.render e items b).1.children).map liContentChildren
      = items.enum.map (fun p => if (p.1 : Int) == e then [p.2.content ()] else []) := by
  rw [Accordion.children_eq, List.map_map]
  exact List.map_congr_left (fun p _ => AccordionItem.contentChildren_eq _ _ _ _ b)

theorem Accordion.log_eq (e : Int) (items : List AccordionItemContent) (b : Bool) :
    (Accordion.render e items b).2
      = ((List.range items.length).map
          (fun i => [ThunkCall.content i, ThunkCall.header i])).flatten := by
  simp only [Accordion.render, List.map_map]
  rw [show ((Prod.snd ∘ fun p : Nat × AccordionItemContent =>
      (AccordionItem.render ((p.1 : Int) == e) p.1 (p.2.header ()) (p.2.content ()) b,
        [ThunkCall.content p.1, ThunkCall.header p.1])) :
      Nat × AccordionItemContent → List ThunkCall)
      = (fun i => [ThunkCall.content i, ThunkCall.header i]) ∘ Prod.fst from rfl]
  rw [← List.map_map, List.enum_map_fst]

theorem countP_intEq_range (n : Nat) (e : Int) :
    List.countP (fun (i : Nat) => ((i : Int) == e)) (List.range n) ≤ 1 := by
  induction n with
  | zero => simp
  | succ n ih =>
    rw [List.range_succ, List.countP_append]
    by_cases h : (n : Int) = e
    · have h0 : List.countP (fun (i : Nat) => ((i : Int) == e)) (List.range n) = 0 := by
        rw [List.countP_eq_zero]
        intro i hi
        have hilt : i < n := List.mem_range.mp hi
        simp only [beq_iff_eq]
        omega
      have h1 : List.countP (fun (i : Nat) => ((i : Int) == e)) [n] ≤ 1 := by
        simp [List.countP_cons, h]
      omega
    · have h1 : List.countP (fun (i : Nat) => ((i : Int) == e)) [n] = 0 := by
        simp [List.countP_cons, h]
      omega

/-! ## Claims about the accordion -/

/-- C1: counterexample. Rendering a three-item accordion with item 0 expanded
invokes the content renderers of the collapsed items 1 and 2 as well:
`Accordion` calls `item.content()` for every item while building props. -/
theorem accordion_content_invoked_when_collapsed :
    ThunkCall.content 1 ∈ (Accordion.render 0 sampleItems false).2
    ∧ ThunkCall.content 2 ∈ (Accordion.render 0 sampleItems false).2
    ∧ (1 : Int) ≠ 0 ∧ (2 : Int) ≠ 0 :=
  ⟨by decide, by decide, by decide, by decide⟩

/-- C1 (amended): rendering invokes the content renderer of every item exactly
once, expanded or not, but the produced content node is placed into the output
only for the item whose index equals `expandedIndex` — collapsed items render an
empty content container. -/
theorem accordion_content_calls_and_rendering (e : Int)
    (items : List AccordionItemContent) (b : Bool) :
    (Accordion.render e items b).2
      = ((List.range items.length).map
          (fun i => [ThunkCall.content i, ThunkCall.header i])).flatten
    ∧ ((Accordion.render e items b).1.children).map liContentChildren
      = items.enum.map (fun p => if (p.1 : Int) == e then [p.2.content ()] else []) :=
  ⟨Accordion.log_eq e items b, Accordion.contentChildren_map_eq e items b⟩

/-- C8: every rendered item's expand button calls `setExpandedIndex` with the
index of that item, with no special case for the already-expanded one; and
re-rendering with the clicked index as the new `expandedIndex` leaves that item
expanded (radio-button semantics, no built-in toggle). -/
theorem accordion_click_sets_clicked_index (e : Int)
    (items : List AccordionItemContent) (b : Bool) :
    ((Accordion.render e items b).1.children).map
        (fun li => (liButton b li).bind buttonClickIndex)
      = (List.range items.length).map some
    ∧ ∀ i, i < items.length →
        (((Accordion.render (i : Int) items b).1.children).map (liExpandedFlag b))[i]?
          = some true := by
  refine ⟨Accordion.buttons_eq e items b, ?_⟩
  intro i hi
  rw [Accordion.expandedFlags_eq, List.getElem?_map, List.getElem?_range hi]
  simp

/-- Witness for the click theorem: in the three-item accordion, re-rendering
with clicked index 1 leaves item 1 expanded. -/
theorem accordion_click_sets_clicked_index_witness :
    (((Accordion.render (1 : Int) sampleItems false).1.children).map
        (liExpandedFlag false))[1]? = some true :=
  (accordion_click_sets_clicked_index 0 sampleItems false).2 1 (by decide)

/-- C9: for every items list and every integer `expandedIndex` (negative or
out-of-range included), the rendered items expanded flags are exactly the
predicate "index equals expandedIndex", so at most one rendered item is
expanded — selecting a new index implicitly collapses the previous one. -/
theorem accordion_at_most_one_expanded (e : Int)
    (items : List AccordionItemContent) (b : Bool) :
    ((Accordion.render e items b).1.children).map (liExpandedFlag b)
      = (List.range items.length).map (fun (i : Nat) => ((i : Int) == e))
    ∧ List.countP (liExpandedFlag b) ((Accordion.render e items b).1.children) ≤ 1 := by
  refine ⟨Accordion.expandedFlags_eq e items b, ?_⟩
  have h1 : List.countP (liExpandedFlag b) ((Accordion.render e items b).1.children)
      = List.countP (fun x => x)
          (((Accordion.render e items b).1.children).map (liExpandedFlag b)) := by
    rw [List.countP_map]
    rfl
  rw [h1, Accordion.expandedFlags_eq, List.countP_map]
  exact countP_intEq_range items.length e

/-! ## Claims about SentryAppAvatar -/

theorem avatarDetails_eq (isColor : Bool) (sentryApp : Option AvatarSentryApp) :
    (sentryApp.bind (fun app =>
        app.avatars.bind (fun avs => avs.find? (fun a => a.color == isColor))))
      = (avatarListOf sentryApp).find? (fun a => a.color == isColor) := by
  cases sentryApp with
  | none => rfl
  | some app =>
    obtain ⟨nm, avs⟩ := app
    cases avs <;> rfl

/-- C10: `SentryAppAvatar` renders the generic default icon exactly when
`isDefault` is set, or no avatar whose `color` flag equals `isColor` exists in
`sentryApp.avatars` (also when `sentryApp` or its `avatars` are `undefined`),
or the first matching avatar has been reverted to `avatarType` "default"; in
every other case it renders an uploaded `BaseAvatar` whose upload id is the
matching avatar's `avatarUuid`, backed by the same default icon. -/
theorem sentry_app_avatar_default_characterisation (isColor isDefault : Bool)
    (sentryApp : Option AvatarSentryApp) :
    (sentryAppAvatar isColor isDefault sentryApp = AvatarNode.iconGeneric
      ↔ isDefault = true
        ∨ (∀ a ∈ avatarListOf sentryApp, a.color ≠ isColor)
        ∨ (∃ d, (avatarListOf sentryApp).find? (fun a => a.color == isColor) = some d
            ∧ d.avatarType = "default"))
    ∧ ∀ d, (avatarListOf sentryApp).find? (fun a => a.color == isColor) = some d →
        isDefault = false → d.avatarType ≠ "default" →
        sentryAppAvatar isColor isDefault sentryApp
          = AvatarNode.baseAvatar d.avatarUuid AvatarNode.iconGeneric := by
  have hrw : sentryAppAvatar isColor isDefault sentryApp =
      (if isDefault
          || ((avatarListOf sentryApp).find? (fun a => a.color == isColor)).isNone
          || ((avatarListOf sentryApp).find? (fun a => a.color == isColor)).any
              (fun a => a.avatarType == "default") then
        AvatarNode.iconGeneric
      else
        AvatarNode.baseAvatar
          (((avatarListOf sentryApp).find? (fun a => a.color == isColor)).bind
            (fun a => a.avatarUuid)) AvatarNode.iconGeneric) := by
    rw [sentryAppAvatar, avatarDetails_eq]
  cases hfind : (avatarListOf sentryApp).find? (fun a => a.color == isColor) with
  | none =>
    constructor
    · constructor
      · intro _
        refine Or.inr (Or.inl (fun a ha => ?_))
        have := List.find?_eq_none.mp hfind a ha
        simpa using this
      · intro _
        rw [hrw, hfind]
        simp
    · intro d hd
      simp at hd
  | some d =>
    have hdmem := List.mem_of_find?_eq_some hfind
    have hdcol : d.color = isColor := by simpa using List.find?_some hfind
    constructor
    · by_cases hdef : isDefault = true
      · constructor
        · intro _
          exact Or.inl hdef
        · intro _
          rw [hrw, hfind, hdef]
          simp
      · by_cases hty : d.avatarType = "default"
        · constructor
          · intro _
            exact Or.inr (Or.inr ⟨d, rfl, hty⟩)
          · intro _
            rw [hrw, hfind]
            simp [hty]
        · constructor
          · intro hicon
            exfalso
            rw [hrw, hfind] at hicon
            rw [Bool.eq_false_iff.mpr hdef] at hicon
            simp [beq_eq_false_iff_ne.mpr hty] at hicon
          · intro habs
            exfalso
            rcases habs with h1 | h1 | ⟨d2, hd2, hty2⟩
            · exact hdef h1
            · exact h1 d hdmem hdcol
            · injection hd2 with he
              subst he
              exact hty hty2
    · intro d2 hd2 hdef hty2
      injection hd2 with he
      subst he
      rw [hrw, hfind, hdef]
      simp [beq_eq_false_iff_ne.mpr hty2]

/-- Witness for the avatar characterisation at a concrete app with one uploaded
color avatar: the rendered output is the uploaded `BaseAvatar`. -/
theorem sentry_app_avatar_default_characterisation_witness :
    sentryAppAvatar true false
        (some { name := some "app",
                avatars := some [{ avatarType := "upload", avatarUuid := some "u2",
                                   color := true }] })
      = AvatarNode.baseAvatar (some "u2") AvatarNode.iconGeneric :=
  (sentry_app_avatar_default_characterisation true false _).2
    { avatarType := "upload", avatarUuid := some "u2", color := true }
    (by decide) rfl (by decide)

/-! ## Claims about SampleTable -/

/-- C4: counterexample. With the samples and metrics slices succeeded and the
transactions slice failed with "HTTP 500", the reported page error is the fixed
generic message — it does not carry the first error encountered among the
slices — even though rows are still produced. -/
theorem sample_table_error_not_carried_counterexample :
    (sampleTable partialFailureData).pageError ≠ firstSliceError partialFailureData
    ∧ firstSliceError partialFailureData = some "HTTP 500"
    ∧ (sampleTable partialFailureData).pageError = some sampleTableErrorMessage
    ∧ (sampleTable partialFailureData).tableData ≠ [] :=
  ⟨by decide, by decide, by decide, by decide⟩

/-- C4 (amended): whenever any slice fails, `SampleTable` reports an aggregate
page error with a fixed generic message (not the underlying error), while the
joined rows built from the succeeding slices are still exposed — one row per
span sample, with the span fields intact — and the transaction field derived
from a failed transactions slice that produced no data is absent (`none`). -/
theorem sample_table_partial_failure (inp : SampleTableData)
    (h : inp.sampleError.isSome ∨ inp.transactionError.isSome) :
    (sampleTable inp).pageError = some sampleTableErrorMessage
    ∧ (sampleTable inp).tableData.map (fun r => r.sample) = inp.spans
    ∧ (inp.transactions = [] →
        ∀ r ∈ (sampleTable inp).tableData, r.transaction = none) := by
  refine ⟨?_, ?_, ?_⟩
  · have hcond : (inp.sampleError.isSome || inp.transactionError.isSome) = true := by
      rcases h with h | h <;> simp [h]
    rw [sampleTable]
    simp [hcond]
  · rw [sampleTable]
    simp only [List.map_map]
    exact List.map_id inp.spans
  · intro htx r hr
    rw [sampleTable] at hr
    simp only [List.mem_map] at hr
    obtain ⟨s, _, rfl⟩ := hr
    simp [htx, keyByIdLookup]

/-- Witness for the partial-failure theorem at the concrete failed-transactions
state. -/
theorem sample_table_partial_failure_witness :
    (sampleTable partialFailureData).pageError = some sampleTableErrorMessage
    ∧ (sampleTable partialFailureData).tableData.map (fun r => r.sample)
        = partialFailureData.spans
    ∧ (partialFailureData.transactions = [] →
        ∀ r ∈ (sampleTable partialFailureData).tableData, r.transaction = none) :=
  sample_table_partial_failure partialFailureData (by decide)

/-! ## Claims about stale-response suppression -/

theorem FetchState.WF_init {Sel Res : Type} (s0 : Sel) :
    (@FetchState.init Sel Res s0).WF :=
  ⟨List.nodup_nil, fun p hp => absurd hp (List.not_mem_nil p)⟩

theorem FetchState.WF_step {Sel Res : Type} [DecidableEq Sel] (st : FetchState Sel Res)
    (ev : FetchEvent Sel Res) (h : st.WF) : (st.step ev).WF := by
  obtain ⟨hnd, hlt⟩ := h
  cases ev with
  | changeSelection s => exact ⟨hnd, hlt⟩
  | issueFetch =>
    refine ⟨?_, ?_⟩
    · simp only [FetchState.step, List.map_cons, List.nodup_cons]
      refine ⟨?_, hnd⟩
      intro hmem
      obtain ⟨p, hp, hfst⟩ := List.mem_map.mp hmem
      exact absurd (hfst ▸ hlt p hp) (lt_irrefl _)
    · intro p hp
      simp only [FetchState.step, List.mem_cons] at hp
      rcases hp with rfl | hp
      · exact Nat.lt_succ_self _
      · exact Nat.lt_trans (hlt p hp) (Nat.lt_succ_self _)
  | complete id r =>
    simp only [FetchState.step]
    cases hfind : st.inFlight.find? (fun p => p.1 == id) with
    | none => exact ⟨hnd, hlt⟩
    | some tagged =>
      have hsub : (st.inFlight.filter (fun p => !(p.1 == id))).Sublist st.inFlight :=
        List.filter_sublist _
      have h1 : ((st.inFlight.filter (fun p => !(p.1 == id))).map Prod.fst).Nodup :=
        (hsub.map Prod.fst).nodup hnd
      by_cases hc : tagged.2 = st.current
      · simp only [if_pos hc]
        exact ⟨h1, fun p hp => hlt p (hsub.subset hp)⟩
      · simp only [if_neg hc]
        exact ⟨h1, fun p hp => hlt p (hsub.subset hp)⟩

theorem FetchState.WF_run {Sel Res : Type} [DecidableEq Sel] (st : FetchState Sel Res)
    (events : List (FetchEvent Sel Res)) (h : st.WF) : (st.run events).WF := by
  induction events generalizing st with
  | nil => exact h
  | cons ev evs ih => exact ih _ (FetchState.WF_step st ev h)

theorem find?_eq_of_mem_nodupKeys {Sel : Type} (l : List (Nat × Sel)) (id : Nat) (s : Sel)
    (hnd : (l.map Prod.fst).Nodup) (hmem : (id, s) ∈ l) :
    l.find? (fun p => p.1 == id) = some (id, s) := by
  induction l with
  | nil => cases hmem
  | cons a l ih =>
    rw [List.map_cons, List.nodup_cons] at hnd
    rcases List.mem_cons.mp hmem with rfl | hmem2
    · simp [List.find?_cons]
    · by_cases ha : a.1 = id
      · exfalso
        apply hnd.1
        rw [ha]
        exact List.mem_map.mpr ⟨(id, s), hmem2, rfl⟩
      · rw [List.find?_cons]
        rw [show (a.1 == id) = false from beq_eq_false_iff_ne.mpr ha]
        exact ih hnd.2 hmem2

/-- C5: stale-response suppression in the spec-modelled fetch system — along
every event trace, if a fetch tagged with Selection `S1` is still in flight and
the current Selection has moved to a different value, the arrival of that
fetch's completion leaves the visible state unchanged: the stale result is
discarded, never applied. -/
theorem stale_fetch_result_discarded {Sel Res : Type} [DecidableEq Sel] (s0 : Sel)
    (events : List (FetchEvent Sel Res)) (id : Nat) (S1 : Sel) (r : Res)
    (hmem : (id, S1) ∈ (FetchState.run (FetchState.init s0) events).inFlight)
    (hstale : (FetchState.run (FetchState.init s0) events).current ≠ S1) :
    ((FetchState.run (FetchState.init s0) events).step (FetchEvent.complete id r)).visible
      = (FetchState.run (FetchState.init s0) events).visible := by
  have hwf : (FetchState.run (FetchState.init s0) events).WF :=
    FetchState.WF_run _ _ (FetchState.WF_init s0)
  have hfind : (FetchState.run (FetchState.init s0) events).inFlight.find?
      (fun p => p.1 == id) = some (id, S1) :=
    find?_eq_of_mem_nodupKeys _ _ _ hwf.1 hmem
  simp only [FetchState.step, hfind]
  rw [if_neg (Ne.symm hstale)]

/-- Witness for stale-response suppression: a fetch issued for selection "s1"
completes after the selection has moved to "s2" and is discarded. -/
theorem stale_fetch_result_discarded_witness :
    ((FetchState.run (FetchState.init "s1")
        [FetchEvent.issueFetch, FetchEvent.changeSelection "s2"]).step
          (FetchEvent.complete 0 (42 : Nat))).visible
      = (FetchState.run (FetchState.init "s1")
          [FetchEvent.issueFetch, FetchEvent.changeSelection "s2"]).visible :=
  stale_fetch_result_discarded "s1"
    [FetchEvent.issueFetch, FetchEvent.changeSelection "s2"] 0 "s1" 42
    (by decide) (by decide)
